import Mathlib

/-!
Shallow embedding of the rdvb-os-linux DVB frontend/demux property layer.

Each definition mirrors one item of the Rust source (src/error.rs,
src/frontend/property.rs, src/frontend/functions.rs, src/frontend/data.rs,
src/frontend/queries/get.rs, src/frontend/queries/set.rs,
src/demux/functions.rs).  Machine integers are modelled as Nat/Int with
explicit two's-complement reinterpretation where the source reads union
bits under two signednesses; Rust panics (assert_eq!, expect, unwrap,
todo!) are modelled as the `none` case of an `Option`-valued result, and
fallible operations return `Except`.
-/

/-- Errno values of the nix crate, modelled by their Linux numeric codes. -/
abbrev Errno := Nat

/-- Linux EIO. -/
def Errno.EIO : Errno := 5

/-- Linux EBUSY. -/
def Errno.EBUSY : Errno := 16

/-- Linux EINVAL. -/
def Errno.EINVAL : Errno := 22

/-- src/error.rs: `DmxStartError`. -/
inductive DmxStartError where
  | InvalidArgument
  | Conflicting
  | Undefined (e : Errno)
deriving DecidableEq, Repr

/-- src/error.rs: `impl From<Errno> for DmxStartError`.
`EINVAL => InvalidArgument`, `EBUSY => Conflicting`, `e => Undefined(e)`. -/
def DmxStartError.fromErrno (value : Errno) : DmxStartError :=
  if value = Errno.EINVAL then .InvalidArgument
  else if value = Errno.EBUSY then .Conflicting
  else .Undefined value

/-- src/demux/functions.rs: `start` maps the raw ioctl outcome through
`DmxStartError::from`; the ioctl itself is an external effect, modelled by
its outcome. -/
def dmxStart (ioctlOutcome : Except Errno Unit) : Except DmxStartError Unit :=
  match ioctlOutcome with
  | .ok _ => .ok ()
  | .error e => .error (DmxStartError.fromErrno e)

/-- src/error.rs: `PropertyError`. -/
inductive PropertyError where
  | TooManyParameters
  | GetProperty (e : Errno)
  | SetProperty (e : Errno)
deriving DecidableEq, Repr

/-- src/error.rs: `DtvError`. -/
inductive DtvError where
  | NotRan
  | Reported (code : Int)
deriving DecidableEq, Repr

/-- src/frontend/data.rs: `DTV_IOCTL_MAX_MSGS = 64`. -/
def DTV_IOCTL_MAX_MSGS : Nat := 64

/-- src/frontend/property.rs: `FeCapScaleParams` (`repr(C)`, discriminants
0..3). -/
inductive FeCapScaleParams where
  | FE_SCALE_NOT_AVAILABLE
  | FE_SCALE_DECIBEL
  | FE_SCALE_RELATIVE
  | FE_SCALE_COUNTER
deriving DecidableEq, Repr

/-- The `TryFromDiscriminant` derive of `FeCapScaleParams`: a raw scale
byte back to the enum, `none` when no discriminant matches. -/
def FeCapScaleParams.tryFrom (n : Nat) : Option FeCapScaleParams :=
  match n with
  | 0 => some .FE_SCALE_NOT_AVAILABLE
  | 1 => some .FE_SCALE_DECIBEL
  | 2 => some .FE_SCALE_RELATIVE
  | 3 => some .FE_SCALE_COUNTER
  | _ => none

/-- src/frontend/property.rs: `DtvStatsValue`, an 8-byte union read either
as `uvalue: u64` or as `svalue: i64`; modelled as the raw 64 bits. -/
structure DtvStatsValue where
  bits : Nat
deriving DecidableEq, Repr

/-- The `uvalue` overlay: the bits as an unsigned 64-bit integer. -/
def DtvStatsValue.uvalue (v : DtvStatsValue) : Nat := v.bits % 2 ^ 64

/-- Two's-complement reinterpretation of 64 bits as a signed integer. -/
def toSigned64 (n : Nat) : Int :=
  if n % 2 ^ 64 < 2 ^ 63 then ((n % 2 ^ 64 : Nat) : Int)
  else ((n % 2 ^ 64 : Nat) : Int) - 2 ^ 64

/-- The `svalue` overlay: the same bits as a signed 64-bit integer. -/
def DtvStatsValue.svalue (v : DtvStatsValue) : Int := toSigned64 v.bits

/-- src/frontend/property.rs: `DtvStats` (`scale: u8`, `value`). -/
structure DtvStats where
  scale : Nat
  value : DtvStatsValue
deriving DecidableEq, Repr

/-- src/frontend/property.rs: `DtvFeStats` (`len: u8`, `stat: [DtvStats; 4]`). -/
structure DtvFeStats where
  len : Nat
  stat : Fin 4 → DtvStats

/-- src/frontend/property.rs: `DtvPropertyABuffer` (`data: [u8; 32]`,
`len: u32`; the reserved pointer fields carry no information). -/
structure DtvPropertyABuffer where
  data : List Nat
  len : Nat
deriving DecidableEq, Repr

/-- src/frontend/property.rs: `DtvPropertyUnion`, a C union of the three
overlays `data: u32`, `st: DtvFeStats`, `buffer: DtvPropertyABuffer`.
Modelled as simultaneous views: every decoder in the source reads only the
overlay the producing command filled (the SAFETY comments), so no claim
crosses overlays. -/
structure DtvPropertyUnion where
  data : Nat
  st : DtvFeStats
  buffer : DtvPropertyABuffer

/-- A zeroed `DtvStats` slot. -/
def DtvStats.zero : DtvStats := ⟨0, ⟨0⟩⟩

/-- A zeroed `DtvFeStats`. -/
def DtvFeStats.zero : DtvFeStats := ⟨0, fun _ => DtvStats.zero⟩

/-- A zeroed `DtvPropertyABuffer` (32 zero bytes, length 0). -/
def DtvPropertyABuffer.zero : DtvPropertyABuffer := ⟨List.replicate 32 0, 0⟩

/-- `DtvPropertyUnion { data }`: the scalar overlay set, the rest zeroed
(the source zero-initialises through the `data` arm). -/
def DtvPropertyUnion.ofData (d : Nat) : DtvPropertyUnion :=
  ⟨d, DtvFeStats.zero, DtvPropertyABuffer.zero⟩

/-- src/frontend/property.rs: `Command` (`repr(u32)`), the full catalog of
property command ids. -/
inductive Command where
  | DTV_UNDEFINED
  | DTV_TUNE
  | DTV_CLEAR
  | DTV_FREQUENCY
  | DTV_MODULATION
  | DTV_BANDWIDTH_HZ
  | DTV_INVERSION
  | DTV_DISEQC_MASTER
  | DTV_SYMBOL_RATE
  | DTV_INNER_FEC
  | DTV_VOLTAGE
  | DTV_TONE
  | DTV_PILOT
  | DTV_ROLLOFF
  | DTV_DISEQC_SLAVE_REPLY
  | DTV_FE_CAPABILITY_COUNT
  | DTV_FE_CAPABILITY
  | DTV_DELIVERY_SYSTEM
  | DTV_ISDBT_PARTIAL_RECEPTION
  | DTV_ISDBT_SOUND_BROADCASTING
  | DTV_ISDBT_SB_SUBCHANNEL_ID
  | DTV_ISDBT_SB_SEGMENT_IDX
  | DTV_ISDBT_SB_SEGMENT_COUNT
  | DTV_ISDBT_LAYERA_FEC
  | DTV_ISDBT_LAYERA_MODULATION
  | DTV_ISDBT_LAYERA_SEGMENT_COUNT
  | DTV_ISDBT_LAYERA_TIME_INTERLEAVING
  | DTV_ISDBT_LAYERB_FEC
  | DTV_ISDBT_LAYERB_MODULATION
  | DTV_ISDBT_LAYERB_SEGMENT_COUNT
  | DTV_ISDBT_LAYERB_TIME_INTERLEAVING
  | DTV_ISDBT_LAYERC_FEC
  | DTV_ISDBT_LAYERC_MODULATION
  | DTV_ISDBT_LAYERC_SEGMENT_COUNT
  | DTV_ISDBT_LAYERC_TIME_INTERLEAVING
  | DTV_API_VERSION
  | DTV_CODE_RATE_HP
  | DTV_CODE_RATE_LP
  | DTV_GUARD_INTERVAL
  | DTV_TRANSMISSION_MODE
  | DTV_HIERARCHY
  | DTV_ISDBT_LAYER_ENABLED
  | DTV_STREAM_ID
  | DTV_DVBT2_PLP_ID_LEGACY
  | DTV_ENUM_DELSYS
  | DTV_ATSCMH_FIC_VER
  | DTV_ATSCMH_PARADE_ID
  | DTV_ATSCMH_NOG
  | DTV_ATSCMH_TNOG
  | DTV_ATSCMH_SGN
  | DTV_ATSCMH_PRC
  | DTV_ATSCMH_RS_FRAME_MODE
  | DTV_ATSCMH_RS_FRAME_ENSEMBLE
  | DTV_ATSCMH_RS_CODE_MODE_PRI
  | DTV_ATSCMH_RS_CODE_MODE_SEC
  | DTV_ATSCMH_SCCC_BLOCK_MODE
  | DTV_ATSCMH_SCCC_CODE_MODE_A
  | DTV_ATSCMH_SCCC_CODE_MODE_B
  | DTV_ATSCMH_SCCC_CODE_MODE_C
  | DTV_ATSCMH_SCCC_CODE_MODE_D
  | DTV_INTERLEAVING
  | DTV_LNA
  | DTV_STAT_SIGNAL_STRENGTH
  | DTV_STAT_CNR
  | DTV_STAT_PRE_ERROR_BIT_COUNT
  | DTV_STAT_PRE_TOTAL_BIT_COUNT
  | DTV_STAT_POST_ERROR_BIT_COUNT
  | DTV_STAT_POST_TOTAL_BIT_COUNT
  | DTV_STAT_ERROR_BLOCK_COUNT
  | DTV_STAT_TOTAL_BLOCK_COUNT
  | DTV_SCRAMBLING_SEQUENCE_INDEX
deriving DecidableEq, Repr

/-- The explicit `u32` discriminant of each `Command` (`cmd as u32`). -/
def Command.toNat : Command → Nat
  | .DTV_UNDEFINED => 0
  | .DTV_TUNE => 1
  | .DTV_CLEAR => 2
  | .DTV_FREQUENCY => 3
  | .DTV_MODULATION => 4
  | .DTV_BANDWIDTH_HZ => 5
  | .DTV_INVERSION => 6
  | .DTV_DISEQC_MASTER => 7
  | .DTV_SYMBOL_RATE => 8
  | .DTV_INNER_FEC => 9
  | .DTV_VOLTAGE => 10
  | .DTV_TONE => 11
  | .DTV_PILOT => 12
  | .DTV_ROLLOFF => 13
  | .DTV_DISEQC_SLAVE_REPLY => 14
  | .DTV_FE_CAPABILITY_COUNT => 15
  | .DTV_FE_CAPABILITY => 16
  | .DTV_DELIVERY_SYSTEM => 17
  | .DTV_ISDBT_PARTIAL_RECEPTION => 18
  | .DTV_ISDBT_SOUND_BROADCASTING => 19
  | .DTV_ISDBT_SB_SUBCHANNEL_ID => 20
  | .DTV_ISDBT_SB_SEGMENT_IDX => 21
  | .DTV_ISDBT_SB_SEGMENT_COUNT => 22
  | .DTV_ISDBT_LAYERA_FEC => 23
  | .DTV_ISDBT_LAYERA_MODULATION => 24
  | .DTV_ISDBT_LAYERA_SEGMENT_COUNT => 25
  | .DTV_ISDBT_LAYERA_TIME_INTERLEAVING => 26
  | .DTV_ISDBT_LAYERB_FEC => 27
  | .DTV_ISDBT_LAYERB_MODULATION => 28
  | .DTV_ISDBT_LAYERB_SEGMENT_COUNT => 29
  | .DTV_ISDBT_LAYERB_TIME_INTERLEAVING => 30
  | .DTV_ISDBT_LAYERC_FEC => 31
  | .DTV_ISDBT_LAYERC_MODULATION => 32
  | .DTV_ISDBT_LAYERC_SEGMENT_COUNT => 33
  | .DTV_ISDBT_LAYERC_TIME_INTERLEAVING => 34
  | .DTV_API_VERSION => 35
  | .DTV_CODE_RATE_HP => 36
  | .DTV_CODE_RATE_LP => 37
  | .DTV_GUARD_INTERVAL => 38
  | .DTV_TRANSMISSION_MODE => 39
  | .DTV_HIERARCHY => 40
  | .DTV_ISDBT_LAYER_ENABLED => 41
  | .DTV_STREAM_ID => 42
  | .DTV_DVBT2_PLP_ID_LEGACY => 43
  | .DTV_ENUM_DELSYS => 44
  | .DTV_ATSCMH_FIC_VER => 45
  | .DTV_ATSCMH_PARADE_ID => 46
  | .DTV_ATSCMH_NOG => 47
  | .DTV_ATSCMH_TNOG => 48
  | .DTV_ATSCMH_SGN => 49
  | .DTV_ATSCMH_PRC => 50
  | .DTV_ATSCMH_RS_FRAME_MODE => 51
  | .DTV_ATSCMH_RS_FRAME_ENSEMBLE => 52
  | .DTV_ATSCMH_RS_CODE_MODE_PRI => 53
  | .DTV_ATSCMH_RS_CODE_MODE_SEC => 54
  | .DTV_ATSCMH_SCCC_BLOCK_MODE => 55
  | .DTV_ATSCMH_SCCC_CODE_MODE_A => 56
  | .DTV_ATSCMH_SCCC_CODE_MODE_B => 57
  | .DTV_ATSCMH_SCCC_CODE_MODE_C => 58
  | .DTV_ATSCMH_SCCC_CODE_MODE_D => 59
  | .DTV_INTERLEAVING => 60
  | .DTV_LNA => 61
  | .DTV_STAT_SIGNAL_STRENGTH => 62
  | .DTV_STAT_CNR => 63
  | .DTV_STAT_PRE_ERROR_BIT_COUNT => 64
  | .DTV_STAT_PRE_TOTAL_BIT_COUNT => 65
  | .DTV_STAT_POST_ERROR_BIT_COUNT => 66
  | .DTV_STAT_POST_TOTAL_BIT_COUNT => 67
  | .DTV_STAT_ERROR_BLOCK_COUNT => 68
  | .DTV_STAT_TOTAL_BLOCK_COUNT => 69
  | .DTV_SCRAMBLING_SEQUENCE_INDEX => 70

/-- src/frontend/property.rs: `DtvProperty` (`cmd: u32`,
`reserved: [u32; 3]`, `u: DtvPropertyUnion`, `result: c_int`). -/
structure DtvProperty where
  cmd : Nat
  reserved : List Nat
  u : DtvPropertyUnion
  result : Int

/-- src/frontend/property.rs: `DtvProperty::new_empty`. -/
def DtvProperty.new_empty (cmd : Command) : DtvProperty :=
  ⟨cmd.toNat, [0, 0, 0], DtvPropertyUnion.ofData 0, 0⟩

/-- src/frontend/property.rs: `DtvProperty::new_data`. -/
def DtvProperty.new_data (cmd : Command) (data : Nat) : DtvProperty :=
  ⟨cmd.toNat, [0, 0, 0], DtvPropertyUnion.ofData data, 0⟩

/-- src/frontend/queries/get.rs: the `PropertyQuery` trait, as a record of
its two items (`associated_command`, `from_property`); the decode is a
total function for query types whose decoder cannot panic. -/
structure PropertyQuery (T : Type) where
  associated_command : Command
  from_property : DtvPropertyUnion → T

/-- src/frontend/queries/get.rs: `PendingQuery<T>` (the `PhantomData`
carries no state; `memory: Option<DtvProperty>`). -/
structure PendingQuery (T : Type) where
  memory : Option DtvProperty

/-- src/frontend/queries/get.rs: `PropertyQuery::query()`, a fresh handle
with no captured slot. -/
def PropertyQuery.query (_pq : PropertyQuery T) : PendingQuery T := ⟨none⟩

/-- src/frontend/queries/get.rs: `PendingQuery::retrieve`.  The trait
dictionary stands for `T: PropertyQuery`. -/
def PendingQuery.retrieve (q : PendingQuery T) (pq : PropertyQuery T) :
    Except DtvError T :=
  match q.memory with
  | none => .error .NotRan
  | some property =>
    if property.result < 0 then .error (.Reported property.result)
    else .ok (pq.from_property property.u)

/-- src/frontend/queries/get.rs: `ValueStat`. -/
inductive ValueStat where
  | Decibel (v : Int)
  | Relative (v : Nat)
deriving DecidableEq, Repr

/-- src/frontend/queries/get.rs: `StatResult`. -/
inductive StatResult where
  | Value (v : ValueStat)
  | Count (v : Nat)
deriving DecidableEq, Repr

/-- src/frontend/queries/get.rs: `StatResult::from(scale, raw_value)`.
The union reads `raw_value.svalue` / `raw_value.uvalue` are the signed and
unsigned views of the same 64 bits. -/
def StatResult.fromScale (scale : FeCapScaleParams) (raw_value : DtvStatsValue) :
    Option StatResult :=
  match scale with
  | .FE_SCALE_NOT_AVAILABLE => none
  | .FE_SCALE_DECIBEL => some (.Value (.Decibel raw_value.svalue))
  | .FE_SCALE_RELATIVE => some (.Value (.Relative raw_value.uvalue))
  | .FE_SCALE_COUNTER => some (.Count raw_value.uvalue)

/-- Outcome of a Rust `partial_cmp` whose body may hit a `todo!()` panic:
either the panic, or the returned `Option<Ordering>`. -/
inductive CmpOutcome where
  | panics
  | returns (r : Option Ordering)
deriving DecidableEq, Repr

/-- src/frontend/queries/get.rs: `impl PartialOrd for ValueStat`
(`partial_cmp`): two decibel readings hit `todo!()`; two relative readings
compare by `u64` order; mixed kinds return `None`. -/
def ValueStat.partCmp : ValueStat → ValueStat → CmpOutcome
  | .Decibel _, .Decibel _ => .panics
  | .Relative a, .Relative b => .returns (some (compare a b))
  | _, _ => .returns none

/-- src/frontend/data.rs: `FeDeliverySystem` (`repr(C)`, discriminants
0..19 in declaration order). -/
inductive FeDeliverySystem where
  | UNDEFINED
  | DVBC_ANNEX_A
  | DVBC_ANNEX_B
  | DVBT
  | DSS
  | DVBS
  | DVBS2
  | DVBH
  | ISDBT
  | ISDBS
  | ISDBC
  | ATSC
  | ATSCMH
  | DTMB
  | CMMB
  | DAB
  | DVBT2
  | TURBO
  | DVBC_ANNEX_C
  | DVBC2
deriving DecidableEq, Repr, Fintype

/-- The `repr(C)` discriminant of each `FeDeliverySystem`; the derived
`Ord` of the source compares by this value (declaration order). -/
def FeDeliverySystem.toNat : FeDeliverySystem → Nat
  | .UNDEFINED => 0
  | .DVBC_ANNEX_A => 1
  | .DVBC_ANNEX_B => 2
  | .DVBT => 3
  | .DSS => 4
  | .DVBS => 5
  | .DVBS2 => 6
  | .DVBH => 7
  | .ISDBT => 8
  | .ISDBS => 9
  | .ISDBC => 10
  | .ATSC => 11
  | .ATSCMH => 12
  | .DTMB => 13
  | .CMMB => 14
  | .DAB => 15
  | .DVBT2 => 16
  | .TURBO => 17
  | .DVBC_ANNEX_C => 18
  | .DVBC2 => 19

/-- The `TryFromDiscriminant` derive of `FeDeliverySystem`: a raw byte
back to the enum, `none` when no discriminant matches. -/
def FeDeliverySystem.tryFrom (n : Nat) : Option FeDeliverySystem :=
  match n with
  | 0 => some .UNDEFINED
  | 1 => some .DVBC_ANNEX_A
  | 2 => some .DVBC_ANNEX_B
  | 3 => some .DVBT
  | 4 => some .DSS
  | 5 => some .DVBS
  | 6 => some .DVBS2
  | 7 => some .DVBH
  | 8 => some .ISDBT
  | 9 => some .ISDBS
  | 10 => some .ISDBC
  | 11 => some .ATSC
  | 12 => some .ATSCMH
  | 13 => some .DTMB
  | 14 => some .CMMB
  | 15 => some .DAB
  | 16 => some .DVBT2
  | 17 => some .TURBO
  | 18 => some .DVBC_ANNEX_C
  | 19 => some .DVBC2
  | _ => none

/-- `BTreeSet::insert` on the model of a `BTreeSet<FeDeliverySystem>`: a
strictly-ascending list ordered by discriminant, insertion keeping order
and dropping a duplicate. -/
def insertSorted (x : FeDeliverySystem) : List FeDeliverySystem → List FeDeliverySystem
  | [] => [x]
  | y :: ys =>
    if x.toNat < y.toNat then x :: y :: ys
    else if x.toNat = y.toNat then y :: ys
    else y :: insertSorted x ys

/-- The loop of `EnumerateDeliverySystems::from_property`: insert the
decoded system of each buffer byte in turn; `none` models the `unwrap`
panic on a byte that is no delivery-system discriminant. -/
def decodeDelsys : List Nat → List FeDeliverySystem → Option (List FeDeliverySystem)
  | [], acc => some acc
  | b :: bs, acc =>
    match FeDeliverySystem.tryFrom b with
    | none => none
    | some s => decodeDelsys bs (insertSorted s acc)

/-- src/frontend/queries/get.rs: `EnumerateDeliverySystems` holds the
decoded `BTreeSet`, modelled as its ascending iteration order. -/
structure EnumerateDeliverySystems where
  systems : List FeDeliverySystem
deriving DecidableEq, Repr

/-- src/frontend/queries/get.rs: `EnumerateDeliverySystems::from_property`:
read `u.buffer.len`, decode that many leading buffer bytes into the set.
`none` models the panics (an out-of-bounds index into the 32-byte array,
or an `unwrap` on an unknown discriminant). -/
def EnumerateDeliverySystems.from_property (u : DtvPropertyUnion) :
    Option EnumerateDeliverySystems :=
  if u.buffer.len ≤ u.buffer.data.length then
    (decodeDelsys (u.buffer.data.take u.buffer.len) []).map EnumerateDeliverySystems.mk
  else none

/-- src/frontend/queries/get.rs: the get-query `Frequency(pub u32)`. -/
structure GetProp.Frequency where
  val : Nat
deriving DecidableEq, Repr

/-- src/frontend/queries/get.rs: `Frequency::from_property` reads the
scalar overlay `u.data`. -/
def GetProp.Frequency.from_property (u : DtvPropertyUnion) : GetProp.Frequency :=
  ⟨u.data⟩

/-- The `PropertyQuery` impl of the frequency get-query
(`associated_command = DTV_FREQUENCY`). -/
def GetProp.Frequency.pquery : PropertyQuery GetProp.Frequency :=
  ⟨Command.DTV_FREQUENCY, GetProp.Frequency.from_property⟩

/-- src/frontend/queries/get.rs: `SignalStrength(pub Option<ValueStat>)`. -/
structure SignalStrength where
  val : Option ValueStat
deriving DecidableEq, Repr

/-- src/frontend/queries/get.rs: `SignalStrength::from_property`: read the
stats overlay, `assert_eq!(stats.len, 1)`, decode slot 0; `none` models
the panics (`assert_eq!`, the `expect` on an unknown scale byte, and the
`panic!` when a count arrives where a value is expected). -/
def SignalStrength.from_property (u : DtvPropertyUnion) : Option SignalStrength :=
  let stats := u.st
  if stats.len = 1 then
    let stat := stats.stat 0
    match FeCapScaleParams.tryFrom stat.scale with
    | none => none
    | some scale =>
      match StatResult.fromScale scale stat.value with
      | none => some ⟨none⟩
      | some (.Value value_stat) => some ⟨some value_stat⟩
      | some (.Count _) => none
  else none

/-- src/frontend/queries/get.rs: `impl PartialOrd for SignalStrength`:
no measurement sorts below any measurement; two absent measurements have
no ordering; two present ones defer to `ValueStat` comparison. -/
def SignalStrength.partCmp (a b : SignalStrength) : CmpOutcome :=
  match a.val, b.val with
  | none, none => .returns none
  | none, some _ => .returns (some .lt)
  | some _, none => .returns (some .gt)
  | some x, some y => ValueStat.partCmp x y

/-- src/frontend/queries/get.rs: `TotalBlockCount(pub Option<u64>)`. -/
structure TotalBlockCount where
  val : Option Nat
deriving DecidableEq, Repr

/-- src/frontend/queries/get.rs: `TotalBlockCount::from_property`: like
`SignalStrength::from_property` but a value where a count is expected is
the `panic!` case. -/
def TotalBlockCount.from_property (u : DtvPropertyUnion) : Option TotalBlockCount :=
  let stats := u.st
  if stats.len = 1 then
    let stat := stats.stat 0
    match FeCapScaleParams.tryFrom stat.scale with
    | none => none
    | some scale =>
      match StatResult.fromScale scale stat.value with
      | none => some ⟨none⟩
      | some (.Value _) => none
      | some (.Count count) => some ⟨some count⟩
  else none

/-- src/frontend/queries/set.rs: the set-query `Frequency(u32)`. -/
structure SetProp.Frequency where
  val : Nat
deriving DecidableEq, Repr

/-- src/frontend/queries/set.rs: `SetPropertyQuery::property` for the
frequency setting. -/
def SetProp.Frequency.property (f : SetProp.Frequency) : DtvProperty :=
  DtvProperty.new_data Command.DTV_FREQUENCY f.val

/-- src/frontend/queries/set.rs: `BandwidthHz`, the named channel-width
enumerants. -/
inductive BandwidthHz where
  | _1_172MHz
  | _5MHz
  | _6MHz
  | _7MHz
  | _8MHz
  | _10MHz
deriving DecidableEq, Repr

/-- src/frontend/queries/set.rs: `BandwidthHz::value`, the fixed lookup
from named width to Hz. -/
def BandwidthHz.value : BandwidthHz → Nat
  | ._1_172MHz => 1712000
  | ._5MHz => 5000000
  | ._6MHz => 6000000
  | ._7MHz => 7000000
  | ._8MHz => 8000000
  | ._10MHz => 10000000

/-- src/frontend/queries/set.rs: `SetPropertyQuery::property` for
`BandwidthHz`. -/
def BandwidthHz.property (b : BandwidthHz) : DtvProperty :=
  DtvProperty.new_data Command.DTV_BANDWIDTH_HZ b.value

/-- src/frontend/functions.rs: `get_set_properties_raw`.  The ioctl is an
external effect, modelled by its outcome `ioctl`; the second component
counts how many ioctl calls were issued.  An empty transaction returns
`Ok(())` without any call; a transaction above `DTV_IOCTL_MAX_MSGS`
entries is rejected with `TooManyParameters` before any call; otherwise
exactly one `FE_SET_PROPERTY`/`FE_GET_PROPERTY` call runs and its errno is
wrapped by direction. -/
def get_set_properties_raw (ioctl : Except Errno Unit) (set : Bool) (count : Nat) :
    Except PropertyError Unit × Nat :=
  if count = 0 then (.ok (), 0)
  else if count > DTV_IOCTL_MAX_MSGS then (.error .TooManyParameters, 0)
  else
    match ioctl with
    | .ok _ => (.ok (), 1)
    | .error e =>
      if set then (.error (.SetProperty e), 1) else (.error (.GetProperty e), 1)

/-- A buffer-overlay union holding the given leading bytes, padded with
zeros to the 32-byte array, with the length field set to their count. -/
def mkDelsysBuf (bytes : List Nat) : DtvPropertyUnion :=
  ⟨0, DtvFeStats.zero, ⟨bytes ++ List.replicate (32 - bytes.length) 0, bytes.length⟩⟩

/-- Distinct delivery systems have distinct discriminants. -/
theorem FeDeliverySystem.toNat_inj {a b : FeDeliverySystem}
    (h : a.toNat = b.toNat) : a = b := by
  revert h; revert b; revert a; decide

/-- Membership after a set insertion: the new element or an old one. -/
theorem mem_insertSorted (a x : FeDeliverySystem) (l : List FeDeliverySystem) :
    a ∈ insertSorted x l ↔ a = x ∨ a ∈ l := by
  induction l with
  | nil => simp [insertSorted]
  | cons y ys ih =>
    simp only [insertSorted]
    split
    · simp [List.mem_cons]
    next h1 =>
      split
      next h2 =>
        have hxy : x = y := FeDeliverySystem.toNat_inj h2
        subst hxy
        simp only [List.mem_cons]
        tauto
      next h2 =>
        simp only [List.mem_cons, ih]
        tauto

/-- Insertion keeps the strict ascending order of the set model. -/
theorem pairwise_insertSorted (x : FeDeliverySystem) (l : List FeDeliverySystem)
    (h : l.Pairwise (fun a b => a.toNat < b.toNat)) :
    (insertSorted x l).Pairwise (fun a b => a.toNat < b.toNat) := by
  induction l with
  | nil => simp [insertSorted]
  | cons y ys ih =>
    rcases List.pairwise_cons.mp h with ⟨hy, hys⟩
    simp only [insertSorted]
    split
    next hlt =>
      refine List.pairwise_cons.mpr ⟨?_, h⟩
      intro b hb
      rcases List.mem_cons.mp hb with rfl | hb
      · exact hlt
      · exact hlt.trans (hy b hb)
    next hge =>
      split
      next heq => exact h
      next hne =>
        have hgt : y.toNat < x.toNat := by omega
        refine List.pairwise_cons.mpr ⟨?_, ih hys⟩
        intro b hb
        rcases (mem_insertSorted b x ys).mp hb with rfl | hb
        · exact hgt
        · exact hy b hb

/-- When every byte is a valid discriminant, the decode loop reaches no
panic. -/
theorem decodeDelsys_isSome (bytes : List Nat) (acc : List FeDeliverySystem)
    (h : ∀ b ∈ bytes, (FeDeliverySystem.tryFrom b).isSome) :
    ∃ l, decodeDelsys bytes acc = some l := by
  induction bytes generalizing acc with
  | nil => exact ⟨acc, rfl⟩
  | cons b bs ih =>
    have hb : (FeDeliverySystem.tryFrom b).isSome := h b (List.mem_cons_self b bs)
    rcases Option.isSome_iff_exists.mp hb with ⟨s, hs⟩
    simp only [decodeDelsys, hs]
    exact ih (insertSorted s acc) (fun x hx => h x (List.mem_cons_of_mem b hx))

/-- The decode loop's result holds exactly the accumulator's elements and
the systems decoded from the bytes. -/
theorem decodeDelsys_mem (bytes : List Nat) (acc l : List FeDeliverySystem)
    (h : decodeDelsys bytes acc = some l) (a : FeDeliverySystem) :
    a ∈ l ↔ a ∈ acc ∨ ∃ b ∈ bytes, FeDeliverySystem.tryFrom b = some a := by
  induction bytes generalizing acc with
  | nil =>
    simp only [decodeDelsys, Option.some.injEq] at h
    subst h
    simp
  | cons b bs ih =>
    simp only [decodeDelsys] at h
    cases hs : FeDeliverySystem.tryFrom b with
    | none => rw [hs] at h; exact absurd h (by simp)
    | some s =>
      rw [hs] at h
      rw [ih (insertSorted s acc) h]
      simp only [mem_insertSorted, List.mem_cons]
      constructor
      · rintro (⟨rfl | ha⟩ | ⟨c, hc, hca⟩)
        · exact Or.inr ⟨b, Or.inl rfl, hs⟩
        · exact Or.inl ha
        · exact Or.inr ⟨c, Or.inr hc, hca⟩
      · rintro (ha | ⟨c, (rfl | hc), hca⟩)
        · exact Or.inl (Or.inr ha)
        · rw [hs] at hca; cases hca; exact Or.inl (Or.inl rfl)
        · exact Or.inr ⟨c, hc, hca⟩

/-- The decode loop keeps the ascending order of the set model. -/
theorem decodeDelsys_pairwise (bytes : List Nat) (acc l : List FeDeliverySystem)
    (hacc : acc.Pairwise (fun a b => a.toNat < b.toNat))
    (h : decodeDelsys bytes acc = some l) :
    l.Pairwise (fun a b => a.toNat < b.toNat) := by
  induction bytes generalizing acc with
  | nil =>
    simp only [decodeDelsys, Option.some.injEq] at h
    subst h; exact hacc
  | cons b bs ih =>
    simp only [decodeDelsys] at h
    cases hs : FeDeliverySystem.tryFrom b with
    | none => rw [hs] at h; exact absurd h (by simp)
    | some s =>
      rw [hs] at h
      exact ih (insertSorted s acc) (pairwise_insertSorted s acc hacc) h

/-- C1: `PendingQuery::retrieve` consumes the handle and is a three-way
contract for every query type implementing the get-query protocol: an
unfilled slot fails with `NotRan`; a filled slot with a negative per-entry
result fails with `Reported` of exactly that status; otherwise the filled
payload is decoded by the query's decode function and returned. -/
theorem retrieve_contract {T : Type} (pq : PropertyQuery T) (q : PendingQuery T) :
    (q.memory = none → q.retrieve pq = .error .NotRan) ∧
    (∀ p, q.memory = some p → p.result < 0 →
      q.retrieve pq = .error (.Reported p.result)) ∧
    (∀ p, q.memory = some p → 0 ≤ p.result →
      q.retrieve pq = .ok (pq.from_property p.u)) := by
  refine ⟨fun h => by simp [PendingQuery.retrieve, h], ?_, ?_⟩
  · intro p hp hneg
    simp [PendingQuery.retrieve, hp, if_pos hneg]
  · intro p hp hpos
    have hnn : ¬ p.result < 0 := by omega
    simp [PendingQuery.retrieve, hp, if_neg hnn]

/-- C1 witness: a filled frequency slot with result 0 decodes to the
frequency value. -/
theorem retrieve_contract_witness :
    PendingQuery.retrieve
      (⟨some (DtvProperty.new_data .DTV_FREQUENCY 474000000)⟩ :
        PendingQuery GetProp.Frequency)
      GetProp.Frequency.pquery = .ok ⟨474000000⟩ :=
  (retrieve_contract GetProp.Frequency.pquery
      ⟨some (DtvProperty.new_data .DTV_FREQUENCY 474000000)⟩).2.2
    (DtvProperty.new_data .DTV_FREQUENCY 474000000) rfl (by decide)

/-- C2: batch execution in both directions: an empty transaction is a
no-op success without any ioctl; more than 64 entries is rejected with
`TooManyParameters` before any ioctl; a count of 1..=64 (64 included)
passes the local check and issues exactly one ioctl. -/
theorem get_set_properties_raw_contract (ioctl : Except Errno Unit) (set : Bool)
    (count : Nat) :
    (count = 0 → get_set_properties_raw ioctl set count = (.ok (), 0)) ∧
    (count > DTV_IOCTL_MAX_MSGS →
      get_set_properties_raw ioctl set count = (.error .TooManyParameters, 0)) ∧
    (1 ≤ count → count ≤ DTV_IOCTL_MAX_MSGS →
      (get_set_properties_raw ioctl set count).2 = 1) ∧
    (get_set_properties_raw ioctl set 64).2 = 1 := by
  refine ⟨fun h => by simp [get_set_properties_raw, h], ?_, ?_, ?_⟩
  · intro h
    have h0 : ¬ count = 0 := by unfold DTV_IOCTL_MAX_MSGS at h; omega
    simp [get_set_properties_raw, h0, if_pos h]
  · intro h1 h64
    have h0 : ¬ count = 0 := by omega
    have hle : ¬ count > DTV_IOCTL_MAX_MSGS := by omega
    cases ioctl with
    | ok u => simp [get_set_properties_raw, h0, hle]
    | error e => cases set <;> simp [get_set_properties_raw, h0, hle]
  · cases ioctl with
    | ok u => simp [get_set_properties_raw, DTV_IOCTL_MAX_MSGS]
    | error e => cases set <;> simp [get_set_properties_raw, DTV_IOCTL_MAX_MSGS]

/-- C2 witness: a GET transaction of exactly 64 entries issues one ioctl. -/
theorem get_set_properties_raw_contract_witness :
    (get_set_properties_raw (.ok ()) false 64).2 = 1 :=
  (get_set_properties_raw_contract (.ok ()) false 64).2.2.1 (by decide) (by decide)

/-- C3: the scale-tagged decoder is total and deterministic on every valid
tag and every 64-bit sample: not-available gives no value; decibel gives a
`Decibel` carrying the signed view of the bits; relative gives a
`Relative` and counter a `Count`, both carrying the unsigned view; the
signed and unsigned views are the same bits (they agree modulo 2^64 and
stay within the 64-bit ranges). -/
theorem stat_scale_decode_total (v : DtvStatsValue) :
    StatResult.fromScale .FE_SCALE_NOT_AVAILABLE v = none ∧
    StatResult.fromScale .FE_SCALE_DECIBEL v = some (.Value (.Decibel v.svalue)) ∧
    StatResult.fromScale .FE_SCALE_RELATIVE v = some (.Value (.Relative v.uvalue)) ∧
    StatResult.fromScale .FE_SCALE_COUNTER v = some (.Count v.uvalue) ∧
    v.uvalue < 2 ^ 64 ∧ -(2 ^ 63) ≤ v.svalue ∧ v.svalue < 2 ^ 63 ∧
    v.svalue % (2 ^ 64 : Int) = (v.uvalue : Int) := by
  refine ⟨rfl, rfl, rfl, rfl, ?_, ?_, ?_, ?_⟩ <;>
  · simp only [DtvStatsValue.svalue, DtvStatsValue.uvalue, toSigned64]
    have h : v.bits % 2 ^ 64 < 2 ^ 64 := Nat.mod_lt _ (by norm_num)
    first
    | exact h
    | split <;> omega

/-- C4: for a buffer payload whose length is at most 32 and whose leading
bytes are valid delivery-system discriminants, decoding the enumeration
succeeds and yields a duplicate-free collection, ascending by discriminant
(strict `Pairwise`), holding exactly the systems occurring among those
bytes; concretely, bytes `[3,4,5]` and `[3,3,4,5]` both decode to
`{DVBT, DSS, DVBS}` in that order. -/
theorem enum_delsys_decode_spec (u : DtvPropertyUnion)
    (hlen : u.buffer.len ≤ 32) (hdata : u.buffer.data.length = 32)
    (hvalid : ∀ b ∈ u.buffer.data.take u.buffer.len,
      (FeDeliverySystem.tryFrom b).isSome) :
    (∃ r, EnumerateDeliverySystems.from_property u = some r ∧
      r.systems.Pairwise (fun a b => a.toNat < b.toNat) ∧
      (∀ s, s ∈ r.systems ↔ ∃ b ∈ u.buffer.data.take u.buffer.len,
        FeDeliverySystem.tryFrom b = some s)) ∧
    EnumerateDeliverySystems.from_property (mkDelsysBuf [3, 4, 5]) =
      some ⟨[.DVBT, .DSS, .DVBS]⟩ ∧
    EnumerateDeliverySystems.from_property (mkDelsysBuf [3, 3, 4, 5]) =
      some ⟨[.DVBT, .DSS, .DVBS]⟩ := by
  refine ⟨?_, by decide, by decide⟩
  have hle : u.buffer.len ≤ u.buffer.data.length := by omega
  obtain ⟨l, hl⟩ := decodeDelsys_isSome (u.buffer.data.take u.buffer.len) [] hvalid
  refine ⟨⟨l⟩, ?_, ?_, ?_⟩
  · simp [EnumerateDeliverySystems.from_property, if_pos hle, hl]
  · exact decodeDelsys_pairwise _ [] l (by simp) hl
  · intro s
    rw [decodeDelsys_mem _ [] l hl s]
    simp

/-- C4 witness: the buffer `[3,4,5]` decodes successfully. -/
theorem enum_delsys_decode_spec_witness :
    (EnumerateDeliverySystems.from_property (mkDelsysBuf [3, 4, 5])).isSome := by
  obtain ⟨⟨r, hr, -, -⟩, -, -⟩ :=
    enum_delsys_decode_spec (mkDelsysBuf [3, 4, 5]) (by decide) (by decide)
      (by decide)
  simp [hr]

/-- C5: encoding the frequency setting into a raw entry and decoding that
entry's payload with the frequency get-query returns the value unchanged,
for every 32-bit frequency. -/
theorem frequency_set_get_roundtrip (f : Nat) (_h : f < 2 ^ 32) :
    GetProp.Frequency.from_property (SetProp.Frequency.property ⟨f⟩).u = ⟨f⟩ ∧
    (SetProp.Frequency.property ⟨f⟩).u.data = f ∧
    SetProp.Frequency.property ⟨f⟩ = DtvProperty.new_data .DTV_FREQUENCY f :=
  ⟨rfl, rfl, rfl⟩

/-- C5 witness: the round trip at 474000000. -/
theorem frequency_set_get_roundtrip_witness :
    GetProp.Frequency.from_property
      (SetProp.Frequency.property ⟨474000000⟩).u = ⟨474000000⟩ :=
  (frequency_set_get_roundtrip 474000000 (by norm_num)).1

/-- C6: the filter-start error mapping is total: `EBUSY` maps to the
resource-conflict condition, `EINVAL` to the argument-rejected condition,
and every other errno to `Undefined` carrying exactly that code. -/
theorem dmx_start_errno_total (e : Errno) (h1 : e ≠ Errno.EBUSY)
    (h2 : e ≠ Errno.EINVAL) :
    DmxStartError.fromErrno Errno.EBUSY = .Conflicting ∧
    DmxStartError.fromErrno Errno.EINVAL = .InvalidArgument ∧
    DmxStartError.fromErrno e = .Undefined e := by
  refine ⟨by decide, by decide, ?_⟩
  unfold DmxStartError.fromErrno
  rw [if_neg h2, if_neg h1]

/-- C6 witness: `EIO` maps to `Undefined(EIO)`. -/
theorem dmx_start_errno_total_witness :
    DmxStartError.fromErrno Errno.EIO = .Undefined Errno.EIO :=
  (dmx_start_errno_total Errno.EIO (by decide) (by decide)).2.2

/-- C7: comparing two `Relative` readings returns a defined ordering equal
to the numeric order of their unsigned values; comparing a `Decibel`
against a `Relative` (either way) returns no ordering. -/
theorem valuestat_cmp_spec (a b : Nat) (d : Int) :
    ValueStat.partCmp (.Relative a) (.Relative b) = .returns (some (compare a b)) ∧
    (compare a b = Ordering.lt ↔ a < b) ∧
    (compare a b = Ordering.eq ↔ a = b) ∧
    (compare a b = Ordering.gt ↔ b < a) ∧
    ValueStat.partCmp (.Decibel d) (.Relative b) = .returns none ∧
    ValueStat.partCmp (.Relative a) (.Decibel d) = .returns none :=
  ⟨rfl, Nat.compare_eq_lt, Nat.compare_eq_eq, Nat.compare_eq_gt, rfl, rfl⟩

/-- C8: the statistics decoders are defensive: decoding returns a value
(rather than the modelled panic) exactly when the statistics length is 1,
the scale byte is a known tag, and the decoded kind matches the query
(value-kind or not-available for signal strength; count-kind or
not-available for total block count). -/
theorem stats_decoders_defensive (u : DtvPropertyUnion) :
    ((SignalStrength.from_property u).isSome ↔
      (u.st.len = 1 ∧ ∃ s, FeCapScaleParams.tryFrom (u.st.stat 0).scale = some s ∧
        s ≠ .FE_SCALE_COUNTER)) ∧
    ((TotalBlockCount.from_property u).isSome ↔
      (u.st.len = 1 ∧ ∃ s, FeCapScaleParams.tryFrom (u.st.stat 0).scale = some s ∧
        (s = .FE_SCALE_NOT_AVAILABLE ∨ s = .FE_SCALE_COUNTER))) := by
  constructor
  · simp only [SignalStrength.from_property]
    split
    next hlen =>
      cases htf : FeCapScaleParams.tryFrom (u.st.stat 0).scale with
      | none => simp [htf, hlen]
      | some s => cases s <;> simp [htf, hlen, StatResult.fromScale]
    next hlen => simp [hlen]
  · simp only [TotalBlockCount.from_property]
    split
    next hlen =>
      cases htf : FeCapScaleParams.tryFrom (u.st.stat 0).scale with
      | none => simp [htf, hlen]
      | some s => cases s <;> simp [htf, hlen, StatResult.fromScale]
    next hlen => simp [hlen]

/-- C9 counterexample: the enumerant named `_1_172MHz` does not encode
1172000 Hz; the source's fixed lookup maps it to 1712000. -/
theorem bandwidth_1_172_not_1172000 : BandwidthHz.value ._1_172MHz ≠ 1172000 := by
  decide

/-- C9 (amended): every named channel-width enumerant builds exactly one
raw entry tagged with the bandwidth command (id 5), scalar payload equal
to its fixed Hz lookup, result field 0; the lookup maps the 5 MHz width to
5000000 and the enumerant named `_1_172MHz` to 1712000 (not 1172000). -/
theorem bandwidth_set_entry_spec (b : BandwidthHz) :
    BandwidthHz.property b = DtvProperty.new_data Command.DTV_BANDWIDTH_HZ b.value ∧
    (BandwidthHz.property b).cmd = 5 ∧
    (BandwidthHz.property b).u.data = b.value ∧
    (BandwidthHz.property b).result = 0 ∧
    BandwidthHz.value ._1_172MHz = 1712000 ∧
    BandwidthHz.value ._5MHz = 5000000 ∧
    BandwidthHz.value ._6MHz = 6000000 ∧
    BandwidthHz.value ._7MHz = 7000000 ∧
    BandwidthHz.value ._8MHz = 8000000 ∧
    BandwidthHz.value ._10MHz = 10000000 :=
  ⟨rfl, rfl, rfl, rfl, rfl, rfl, rfl, rfl, rfl, rfl⟩

/-- C10: in the decoded signal-strength ordering, an absent measurement
compares strictly below a present one (and a present one strictly above
an absent one), yet two absent measurements — though equal — have no
ordering at all: the partial order is inconsistent with equality at the
no-measurement point. -/
theorem signal_strength_cmp_none_spec (v : ValueStat) :
    SignalStrength.partCmp ⟨none⟩ ⟨some v⟩ = .returns (some .lt) ∧
    SignalStrength.partCmp ⟨some v⟩ ⟨none⟩ = .returns (some .gt) ∧
    SignalStrength.partCmp ⟨none⟩ ⟨none⟩ = .returns none ∧
    (⟨none⟩ : SignalStrength) = ⟨none⟩ ∧
    ∀ o : Ordering, SignalStrength.partCmp ⟨none⟩ ⟨none⟩ ≠ .returns (some o) := by
  refine ⟨rfl, rfl, rfl, rfl, ?_⟩
  intro o h
  injection h with h2
  exact Option.noConfusion h2
